import Mathlib

/-!
Verification of the Peza emergency-services lookup backend
(`core/service_finder_api.py`).

The development shallowly embeds the handler `peza_api` and its helpers
`format_address` and `calculate_distance`.

Modelling conventions:
* OSM tag dictionaries become association lists `List (String × String)`;
  `dict.get k d` becomes `tget`.
* Python floats that take part in discrete decisions (coordinates, dedup
  keys) are modelled as rationals `ℚ`; the transcendental haversine
  computation is modelled separately over the reals `ℝ`.
* Python `int(x)` truncation toward zero on reals is `pyTrunc`; the
  `"%.1f"`-style rounding of the kilometre label is `round (10 * x)`
  (ties, which Python resolves to even, do not occur at any evaluated
  point).
* The upstream Overpass HTTP exchange is a parameter: the handler receives
  `Except String (List Elem)`, an `.error e` standing for a raised
  `requests.RequestException` with text `e`.
* The builtin parsers `float`/`int` applied to query-string parameters are
  abstracted as function parameters `pfloat`/`pint` of the handler.
-/

/-- `dict.get k d` on an OSM tag dictionary: first binding of `k`, else `d`. -/
def tget (tags : List (String × String)) (k d : String) : String :=
  (tags.lookup k).getD d

/-- Python `", ".join(parts)`. -/
def joinParts : List String → String
  | [] => ""
  | [p] => p
  | p :: q :: rest => p ++ ", " ++ joinParts (q :: rest)

/-- Embedding of `format_address(tags)`: street line (house number plus
street, or street alone), optional city (with suburb fallback), then the
`addr:place` / `location` fallbacks, finally the literal
`"Address not available"`. -/
def format_address (tags : List (String × String)) : String :=
  let street := tget tags "addr:street" ""
  let housenumber := tget tags "addr:housenumber" ""
  let parts0 : List String :=
    if housenumber ≠ "" ∧ street ≠ "" then [housenumber ++ " " ++ street]
    else if street ≠ "" then [street]
    else []
  let city := tget tags "addr:city" (tget tags "addr:suburb" "")
  let parts1 := if city ≠ "" then parts0 ++ [city] else parts0
  let parts2 :=
    if parts1 = [] then
      if (tags.lookup "addr:place").getD "" ≠ "" then
        [(tags.lookup "addr:place").getD ""]
      else if (tags.lookup "location").getD "" ≠ "" then
        [(tags.lookup "location").getD ""]
      else []
    else parts1
  if parts2 = [] then "Address not available" else joinParts parts2

noncomputable section RealDistance

open Real

/-- `math.radians`: degrees to radians. -/
def deg2rad (x : ℝ) : ℝ := x * (Real.pi / 180)

/-- `math.atan2 y x` (four-quadrant arctangent). -/
def atan2 (y x : ℝ) : ℝ :=
  if 0 < x then Real.arctan (y / x)
  else if x < 0 then
    (if 0 ≤ y then Real.arctan (y / x) + Real.pi else Real.arctan (y / x) - Real.pi)
  else if 0 < y then Real.pi / 2
  else if y < 0 then -(Real.pi / 2)
  else 0

/-- The haversine great-circle distance in kilometres computed by
`calculate_distance`, with Earth radius 6371 km. -/
def haversine_km (lat1 lon1 lat2 lon2 : ℝ) : ℝ :=
  let p1 := deg2rad lat1
  let p2 := deg2rad lat2
  let dlat := p2 - p1
  let dlon := deg2rad lon2 - deg2rad lon1
  let a := Real.sin (dlat / 2) ^ 2 +
    Real.cos p1 * Real.cos p2 * Real.sin (dlon / 2) ^ 2
  let c := 2 * atan2 (Real.sqrt a) (Real.sqrt (1 - a))
  6371 * c

/-- Python `int()` on a real: truncation toward zero. -/
def pyTrunc (x : ℝ) : ℤ := if 0 ≤ x then ⌊x⌋ else -⌊-x⌋

end RealDistance

/-- The distance label returned by `calculate_distance`:
`DistLabel.meters n` renders as `"{n} m"`, and `DistLabel.km t` renders the
integer `t` of tenths of a kilometre as `"{t/10}.{t%10} km"` (the value of
`f"{distance_km:.1f} km"`). -/
inductive DistLabel where
  | meters (n : ℤ)
  | km (tenths : ℤ)
deriving DecidableEq

/-- Embedding of `calculate_distance(lat1, lon1, lat2, lon2)`: the pair of
the formatted label and `distance_meters = int(distance_km * 1000)`. -/
noncomputable def calculate_distance (lat1 lon1 lat2 lon2 : ℝ) : DistLabel × ℤ :=
  let distance_km := haversine_km lat1 lon1 lat2 lon2
  let distance_meters := pyTrunc (distance_km * 1000)
  (if distance_km < 1 then DistLabel.meters distance_meters
   else DistLabel.km (round (distance_km * 10)), distance_meters)

lemma arctan_nonneg {x : ℝ} (h : 0 ≤ x) : 0 ≤ Real.arctan x := by
  have := Real.arctan_strictMono.monotone h
  rwa [Real.arctan_zero] at this

lemma atan2_nonneg {y x : ℝ} (hy : 0 ≤ y) (hx : 0 ≤ x) : 0 ≤ atan2 y x := by
  unfold atan2
  rcases lt_or_eq_of_le hx with h | h
  · rw [if_pos h]
    exact arctan_nonneg (div_nonneg hy h.le)
  · rw [if_neg (by rw [← h]; exact lt_irrefl 0), if_neg (by rw [← h]; exact lt_irrefl 0)]
    split_ifs with h1 h2
    · positivity
    · exact absurd h2 (not_lt.mpr hy)
    · exact le_refl 0

lemma haversine_km_nonneg (lat1 lon1 lat2 lon2 : ℝ) :
    0 ≤ haversine_km lat1 lon1 lat2 lon2 := by
  unfold haversine_km
  have h := atan2_nonneg (Real.sqrt_nonneg
    (Real.sin ((deg2rad lat2 - deg2rad lat1) / 2) ^ 2 +
      Real.cos (deg2rad lat1) * Real.cos (deg2rad lat2) *
        Real.sin ((deg2rad lon2 - deg2rad lon1) / 2) ^ 2))
    (Real.sqrt_nonneg (1 - (Real.sin ((deg2rad lat2 - deg2rad lat1) / 2) ^ 2 +
      Real.cos (deg2rad lat1) * Real.cos (deg2rad lat2) *
        Real.sin ((deg2rad lon2 - deg2rad lon1) / 2) ^ 2)))
  linarith

lemma pyTrunc_of_nonneg {x : ℝ} (h : 0 ≤ x) : pyTrunc x = ⌊x⌋ := by
  simp [pyTrunc, h]

lemma hav_0001 : haversine_km 0 0 0 1 = 6371 * (Real.pi / 180) := by
  have hpi := Real.pi_pos
  have hθpos : (0 : ℝ) < Real.pi / 360 := by positivity
  have hθle : Real.pi / 360 ≤ Real.pi := by linarith
  have hθhalf : Real.pi / 360 < Real.pi / 2 := by linarith
  have hsin : 0 ≤ Real.sin (Real.pi / 360) :=
    Real.sin_nonneg_of_nonneg_of_le_pi hθpos.le hθle
  have hcos : 0 < Real.cos (Real.pi / 360) :=
    Real.cos_pos_of_mem_Ioo ⟨by linarith, hθhalf⟩
  unfold haversine_km deg2rad
  simp only [zero_mul, one_mul, sub_zero, sub_self, zero_div, Real.sin_zero,
    Real.cos_zero]
  rw [div_div]
  norm_num
  rw [Real.sqrt_sq hsin]
  have h1 : (1 : ℝ) - Real.sin (Real.pi / 360) ^ 2 = Real.cos (Real.pi / 360) ^ 2 := by
    have := Real.sin_sq_add_cos_sq (Real.pi / 360)
    linarith
  rw [h1, Real.sqrt_sq hcos.le]
  unfold atan2
  rw [if_pos hcos, ← Real.tan_eq_sin_div_cos,
    Real.arctan_tan (by linarith) hθhalf]
  ring

/-- Claim C1: for every pair of origin and feature coordinates,
`calculate_distance` returns `distance_meters = ⌊distance_km * 1000⌋`
(the haversine distance with Earth radius 6371 km), which is always
non-negative; the label is the metres form exactly when `distance_km < 1`
and otherwise the kilometre form rounded to one decimal; and for
`(0,0)`-`(0,1)` the distance is ≈ 111.19 km (strictly between 111.19 and
111.2) with label `"111.2 km"` (1112 tenths) and 111194 metres. -/
theorem C1_calculate_distance :
    ∀ lat1 lon1 lat2 lon2 : ℝ,
      ((0 : ℤ) ≤ (calculate_distance lat1 lon1 lat2 lon2).2
      ∧ (calculate_distance lat1 lon1 lat2 lon2).2 =
          ⌊haversine_km lat1 lon1 lat2 lon2 * 1000⌋
      ∧ ((haversine_km lat1 lon1 lat2 lon2 < 1 ∧
            (calculate_distance lat1 lon1 lat2 lon2).1 =
              DistLabel.meters (calculate_distance lat1 lon1 lat2 lon2).2)
         ∨ (1 ≤ haversine_km lat1 lon1 lat2 lon2 ∧
            (calculate_distance lat1 lon1 lat2 lon2).1 =
              DistLabel.km (round (haversine_km lat1 lon1 lat2 lon2 * 10)))))
      ∧ (111.19 < haversine_km 0 0 0 1 ∧ haversine_km 0 0 0 1 < 111.2
         ∧ calculate_distance 0 0 0 1 = (DistLabel.km 1112, 111194)) := by
  have main : ∀ lat1 lon1 lat2 lon2 : ℝ,
      (0 : ℤ) ≤ (calculate_distance lat1 lon1 lat2 lon2).2
      ∧ (calculate_distance lat1 lon1 lat2 lon2).2 =
          ⌊haversine_km lat1 lon1 lat2 lon2 * 1000⌋
      ∧ ((haversine_km lat1 lon1 lat2 lon2 < 1 ∧
            (calculate_distance lat1 lon1 lat2 lon2).1 =
              DistLabel.meters (calculate_distance lat1 lon1 lat2 lon2).2)
         ∨ (1 ≤ haversine_km lat1 lon1 lat2 lon2 ∧
            (calculate_distance lat1 lon1 lat2 lon2).1 =
              DistLabel.km (round (haversine_km lat1 lon1 lat2 lon2 * 10)))) := by
    intro lat1 lon1 lat2 lon2
    have hd : 0 ≤ haversine_km lat1 lon1 lat2 lon2 :=
      haversine_km_nonneg lat1 lon1 lat2 lon2
    have hd1000 : 0 ≤ haversine_km lat1 lon1 lat2 lon2 * 1000 := by positivity
    have h2 : (calculate_distance lat1 lon1 lat2 lon2).2 =
        ⌊haversine_km lat1 lon1 lat2 lon2 * 1000⌋ := by
      simp only [calculate_distance]
      exact pyTrunc_of_nonneg hd1000
    refine ⟨?_, h2, ?_⟩
    · rw [h2]
      exact Int.floor_nonneg.mpr hd1000
    · by_cases hlt : haversine_km lat1 lon1 lat2 lon2 < 1
      · left
        exact ⟨hlt, by simp only [calculate_distance, if_pos hlt]⟩
      · right
        exact ⟨not_lt.mp hlt, by simp only [calculate_distance, if_neg hlt]⟩
  intro lat1 lon1 lat2 lon2
  refine ⟨main lat1 lon1 lat2 lon2, ?_, ?_, ?_⟩
  · rw [hav_0001]
    nlinarith [Real.pi_gt_d6]
  · rw [hav_0001]
    nlinarith [Real.pi_lt_d6]
  · have hgt := Real.pi_gt_d6
    have hlt := Real.pi_lt_d6
    have hnotlt : ¬ haversine_km 0 0 0 1 < 1 := by
      rw [hav_0001]; nlinarith
    have hfloor : pyTrunc (haversine_km 0 0 0 1 * 1000) = 111194 := by
      rw [pyTrunc_of_nonneg (mul_nonneg (haversine_km_nonneg 0 0 0 1) (by norm_num)),
        hav_0001, Int.floor_eq_iff]
      constructor <;> push_cast <;> nlinarith
    have hround : round (haversine_km 0 0 0 1 * 10) = 1112 := by
      rw [hav_0001, round_eq, Int.floor_eq_iff]
      constructor <;> push_cast <;> nlinarith
    simp only [calculate_distance, if_neg hnotlt, hfloor, hround]

/-- A raw Overpass element: optional direct point coordinate (`lat`/`lon`),
optional center coordinate (`center.lat`/`center.lon`), and the tag map. -/
structure Elem where
  lat : Option ℚ
  lon : Option ℚ
  center_lat : Option ℚ
  center_lon : Option ℚ
  tags : List (String × String)
deriving DecidableEq

/-- Python `a or b` on optional floats: `a` when it is truthy (present and
nonzero), otherwise `b`. -/
def pyOr (a b : Option ℚ) : Option ℚ :=
  match a with
  | some x => if x = 0 then b else some x
  | none => b

/-- Python truthiness of an optional float: present and nonzero. -/
def truthyQ : Option ℚ → Bool
  | none => false
  | some x => decide (x ≠ 0)

/-- Coordinate resolution of the loop body:
`elem_lat = element.get('lat') or element.get('center', {}).get('lat')`
(same for `lon`), then `if not elem_lat or not elem_lon: continue`. -/
def resolve (e : Elem) : Option (ℚ × ℚ) :=
  match pyOr e.lat e.center_lat, pyOr e.lon e.center_lon with
  | some la, some lo => if la = 0 ∨ lo = 0 then none else some (la, lo)
  | some _, none => none
  | none, _ => none

/-- The deduplication key `f"{lat:.5f},{lon:.5f}"`: both coordinates rounded
to 5 decimal digits (represented as the pair of integers of 10⁻⁵ degrees;
exact half-way ties, which the float formatting resolves to even, are taken
upward). -/
def coordKey (la lo : ℚ) : ℤ × ℤ :=
  (round (la * 100000), round (lo * 100000))

/-- An enriched location record as placed in the response list. -/
structure Location where
  name : String
  category : String
  address : String
  distance : String
  distance_meters : ℤ
  lat : ℚ
  lon : ℚ
  phone : String
  opening_hours : String
  website : String
  emergency : Bool
  operator : String
deriving DecidableEq

/-- Build one location record from an element whose coordinate resolved to
`(la, lo)`.  `dm` abstracts the floating-point `calculate_distance` at the
request origin `(olat, olon)` (its real-number idealization is
`calculate_distance` above). -/
def mkLoc (dm : ℚ → ℚ → ℚ → ℚ → String × ℤ) (cat : String) (olat olon : ℚ)
    (e : Elem) (la lo : ℚ) : Location :=
  let tags := e.tags
  let dist := dm olat olon la lo
  { name := tget tags "name" "Unknown Location"
    category := tget tags "amenity" cat
    address := format_address tags
    distance := dist.1
    distance_meters := dist.2
    lat := la
    lon := lo
    phone := tget tags "phone" (tget tags "contact:phone" "")
    opening_hours := tget tags "opening_hours" ""
    website := tget tags "website" (tget tags "contact:website" "")
    emergency := tget tags "emergency" "" == "yes"
    operator := tget tags "operator" "" }

/-- The `for element in data.get("elements", [])` loop with its
request-scoped `seen_coords` set: skips unresolvable coordinates, skips
already-seen 5-decimal keys, records the key, then drops unnamed locations
unless the requested category is critical. -/
def collect (dm : ℚ → ℚ → ℚ → ℚ → String × ℤ) (cat : String) (olat olon : ℚ) :
    List Elem → List (ℤ × ℤ) → List Location
  | [], _ => []
  | e :: rest, seen =>
    match resolve e with
    | none => collect dm cat olat olon rest seen
    | some (la, lo) =>
      if coordKey la lo ∈ seen then
        collect dm cat olat olon rest seen
      else if tget e.tags "name" "Unknown Location" = "Unknown Location"
          ∧ cat ∉ (["police", "hospital", "fire"] : List String) then
        collect dm cat olat olon rest (coordKey la lo :: seen)
      else
        mkLoc dm cat olat olon e la lo ::
          collect dm cat olat olon rest (coordKey la lo :: seen)

/-- Comparison used by `locations.sort(key=lambda x: x['distance_meters'])`. -/
def distLE (a b : Location) : Bool :=
  decide (a.distance_meters ≤ b.distance_meters)

/-- Parse, enrich, deduplicate, sort (stably, by `distance_meters`) and
truncate to the top 20: the full result-list computation of `peza_api`. -/
def processElements (dm : ℚ → ℚ → ℚ → ℚ → String × ℤ) (cat : String)
    (olat olon : ℚ) (elements : List Elem) : List Location :=
  ((collect dm cat olat olon elements []).mergeSort distLE).take 20

/-- The `category_map` dictionary of Overpass tag filters. -/
def category_map : List (String × String) :=
  [("police", "amenity=police"),
   ("hospital", "amenity=hospital"),
   ("ambulance", "amenity~\"hospital|clinic|doctors\""),
   ("fire", "amenity=fire_station"),
   ("pharmacy", "amenity=pharmacy"),
   ("utility", "office~\"company|government\"")]

/-- The chosen tag filter: the special `all` union, else the map entry,
else the `amenity=hospital` fallback. -/
def query_filter (cat : String) : String :=
  if cat = "all" then "amenity~\"police|hospital|fire_station|clinic\""
  else (category_map.lookup cat).getD "amenity=hospital"

/-- One geometry clause `kind[filter](around:radius,lat,lon);` of the
Overpass query (coordinate rendering abstracted by `toString`). -/
def around_clause (kind f : String) (radius : ℤ) (lat lon : ℚ) : String :=
  kind ++ "[" ++ f ++ "](around:" ++ toString radius ++ "," ++ toString lat
    ++ "," ++ toString lon ++ ");"

/-- The interpolated `overpass_query` f-string, whitespace included. -/
def overpass_query (f : String) (radius : ℤ) (lat lon : ℚ) : String :=
  "\n            [out:json][timeout:15];\n            (\n                node["
    ++ f ++ "](around:" ++ toString radius ++ "," ++ toString lat ++ ","
    ++ toString lon ++ ");\n                way["
    ++ f ++ "](around:" ++ toString radius ++ "," ++ toString lat ++ ","
    ++ toString lon ++ ");\n                relation["
    ++ f ++ "](around:" ++ toString radius ++ "," ++ toString lat ++ ","
    ++ toString lon
    ++ ");\n            );\n            out center tags;\n        "

/-- The transport-level timeout passed to `requests.post`. -/
def request_timeout : ℕ := 20

/-- The `search_params` echo of the success envelope. -/
structure SearchParams where
  latitude : ℚ
  longitude : ℚ
  category : String
  radius_meters : ℤ
deriving DecidableEq

/-- The four `JsonResponse` shapes `peza_api` can produce: the 400
`{"error": …}` body, the 503 and 500 `{"success": false, "error": …,
"details": …}` bodies, and the 200 success envelope. -/
inductive Resp where
  | clientError (error : String)
  | serviceUnavailable (error details : String)
  | internalError (error details : String)
  | success (count : ℕ) (locations : List Location) (search_params : SearchParams)
deriving DecidableEq

/-- HTTP status attached to each response shape. -/
def statusOf : Resp → ℕ
  | .clientError _ => 400
  | .serviceUnavailable _ _ => 503
  | .internalError _ _ => 500
  | .success _ _ _ => 200

/-- The location list carried by a response (empty for every failure). -/
def locationsOf : Resp → List Location
  | .success _ locs _ => locs
  | _ => []

/-- A GET request: its decoded query parameters. -/
structure HttpRequest where
  params : List (String × String)

/-- `request.GET.get(k)`. -/
def getParam (r : HttpRequest) (k : String) : Option String :=
  r.params.lookup k

/-- Python falsiness of `request.GET.get(k)`: absent or the empty string. -/
def optStrFalsy : Option String → Bool
  | none => true
  | some s => s == ""

/-- Embedding of the `peza_api` handler.  `pfloat`/`pint` abstract the
builtin `float()`/`int()` parsers (`none` = the builtin raises);
`dm` abstracts the floating-point `calculate_distance`; `upstream` is the
outcome of the Overpass POST, `.error e` standing for a raised
`requests.RequestException` with text `e`.  Control flow follows the
source: the radius is parsed first (a failure escapes to the generic
`except Exception` handler, whose diagnostic detail is abstracted as the
fixed `int()` message), then missing and then non-numeric coordinates are
rejected, then the radius is clamped above, and only then is the upstream
consulted. -/
def peza_api (pfloat : String → Option ℚ) (pint : String → Option ℤ)
    (dm : ℚ → ℚ → ℚ → ℚ → String × ℤ) (r : HttpRequest)
    (upstream : Except String (List Elem)) : Resp :=
  let latS := getParam r "lat"
  let lonS := getParam r "lon"
  let category := (getParam r "category").getD "all"
  match (match getParam r "radius" with
         | none => some 5000
         | some s => pint s) with
  | none => .internalError "Internal server error" "invalid literal for int() with base 10"
  | some radius0 =>
    if optStrFalsy latS ∨ optStrFalsy lonS then
      .clientError "Missing required parameters: lat and lon"
    else
      match pfloat (latS.getD ""), pfloat (lonS.getD "") with
      | some lat, some lon =>
        let radius := if radius0 > 20000 then 20000 else radius0
        match upstream with
        | .error e =>
          .serviceUnavailable "Failed to fetch emergency services. Please try again." e
        | .ok elements =>
          let locations := processElements dm category lat lon elements
          .success locations.length locations ⟨lat, lon, category, radius⟩
      | _, _ => .clientError "Invalid coordinates format"

/-- Claim C9: `format_address` builds `"{housenumber} {street}"` when both
are present, else the street alone; appends the city (`addr:city`, falling
back to `addr:suburb`) as a comma-joined component when present; falls back
to `addr:place` and then the `location` tag only when neither street nor
city resolved; and returns `"Address not available"` when nothing resolves.
The two concrete examples of the spec are included. -/
theorem C9_format_address :
    ∀ tags : List (String × String),
      ((tget tags "addr:housenumber" "" ≠ "" → tget tags "addr:street" "" ≠ "" →
          tget tags "addr:city" (tget tags "addr:suburb" "") ≠ "" →
          format_address tags =
            tget tags "addr:housenumber" "" ++ " " ++ tget tags "addr:street" ""
              ++ ", " ++ tget tags "addr:city" (tget tags "addr:suburb" ""))
      ∧ (tget tags "addr:housenumber" "" ≠ "" → tget tags "addr:street" "" ≠ "" →
          tget tags "addr:city" (tget tags "addr:suburb" "") = "" →
          format_address tags =
            tget tags "addr:housenumber" "" ++ " " ++ tget tags "addr:street" "")
      ∧ (tget tags "addr:housenumber" "" = "" → tget tags "addr:street" "" ≠ "" →
          tget tags "addr:city" (tget tags "addr:suburb" "") ≠ "" →
          format_address tags =
            tget tags "addr:street" "" ++ ", "
              ++ tget tags "addr:city" (tget tags "addr:suburb" ""))
      ∧ (tget tags "addr:housenumber" "" = "" → tget tags "addr:street" "" ≠ "" →
          tget tags "addr:city" (tget tags "addr:suburb" "") = "" →
          format_address tags = tget tags "addr:street" "")
      ∧ (tget tags "addr:street" "" = "" →
          tget tags "addr:city" (tget tags "addr:suburb" "") ≠ "" →
          format_address tags = tget tags "addr:city" (tget tags "addr:suburb" ""))
      ∧ (tget tags "addr:street" "" = "" →
          tget tags "addr:city" (tget tags "addr:suburb" "") = "" →
          (tags.lookup "addr:place").getD "" ≠ "" →
          format_address tags = (tags.lookup "addr:place").getD "")
      ∧ (tget tags "addr:street" "" = "" →
          tget tags "addr:city" (tget tags "addr:suburb" "") = "" →
          (tags.lookup "addr:place").getD "" = "" →
          (tags.lookup "location").getD "" ≠ "" →
          format_address tags = (tags.lookup "location").getD "")
      ∧ (tget tags "addr:street" "" = "" →
          tget tags "addr:city" (tget tags "addr:suburb" "") = "" →
          (tags.lookup "addr:place").getD "" = "" →
          (tags.lookup "location").getD "" = "" →
          format_address tags = "Address not available"))
      ∧ format_address [("addr:housenumber", "12"), ("addr:street", "Main St"),
          ("addr:city", "Lilongwe")] = "12 Main St, Lilongwe"
      ∧ format_address [] = "Address not available" := by
  intro tags
  refine ⟨⟨?_, ?_, ?_, ?_, ?_, ?_, ?_, ?_⟩, by decide, by decide⟩
  · intro h1 h2 h3
    simp [format_address, h1, h2, h3, joinParts]
  · intro h1 h2 h3
    simp [format_address, h1, h2, h3, joinParts]
  · intro h1 h2 h3
    simp [format_address, h1, h2, h3, joinParts]
  · intro h1 h2 h3
    simp [format_address, h1, h2, h3, joinParts]
  · intro h1 h2
    simp [format_address, h1, h2, joinParts]
  · intro h1 h2 h3
    simp [format_address, h1, h2, h3, joinParts]
  · intro h1 h2 h3 h4
    simp [format_address, h1, h2, h3, h4, joinParts]
  · intro h1 h2 h3 h4
    simp [format_address, h1, h2, h3, h4, joinParts]

/-- Witness for C9: the hypotheses of the first branch hold at the spec's
example tag set and the theorem yields the expected label. -/
theorem C9_format_address_witness :
    (tget [("addr:housenumber", "12"), ("addr:street", "Main St"),
        ("addr:city", "Lilongwe")] "addr:housenumber" "" ≠ ""
      ∧ tget [("addr:housenumber", "12"), ("addr:street", "Main St"),
        ("addr:city", "Lilongwe")] "addr:street" "" ≠ "")
    ∧ format_address [("addr:housenumber", "12"), ("addr:street", "Main St"),
        ("addr:city", "Lilongwe")] = "12 Main St, Lilongwe" := by
  refine ⟨⟨by decide, by decide⟩, ?_⟩
  have h := (C9_format_address [("addr:housenumber", "12"),
    ("addr:street", "Main St"), ("addr:city", "Lilongwe")]).1.1
  exact h (by decide) (by decide) (by decide)

lemma pyOr_eq_some_iff {a b : Option ℚ} {v : ℚ} (hv : v ≠ 0) :
    pyOr a b = some v ↔ (a = some v ∨ ((a = none ∨ a = some 0) ∧ b = some v)) := by
  rcases a with _ | x
  · simp [pyOr]
  · simp only [pyOr]
    by_cases hx : x = 0
    · subst hx
      simp [Ne.symm hv]
    · simp [hx]

lemma resolve_eq_some_iff (e : Elem) (la lo : ℚ) :
    resolve e = some (la, lo) ↔
      pyOr e.lat e.center_lat = some la ∧ pyOr e.lon e.center_lon = some lo
        ∧ la ≠ 0 ∧ lo ≠ 0 := by
  unfold resolve
  rcases h1 : pyOr e.lat e.center_lat with _ | x
  · simp
  · rcases h2 : pyOr e.lon e.center_lon with _ | y
    · simp
    · dsimp only
      split_ifs with h
      · simp only [reduceCtorEq, false_iff]
        rintro ⟨hx, hy, hla, hlo⟩
        rw [Option.some.injEq] at hx hy
        rcases h with h | h
        · exact hla (hx ▸ h)
        · exact hlo (hy ▸ h)
      · push_neg at h
        simp only [Option.some.injEq, Prod.mk.injEq]
        constructor
        · rintro ⟨rfl, rfl⟩
          exact ⟨rfl, rfl, h.1, h.2⟩
        · rintro ⟨hx, hy, _, _⟩
          exact ⟨hx, hy⟩

/-- Claim C3 (amended): the normalizer resolves a coordinate from the
direct point field when it is present and nonzero, otherwise from the
center field when that is present and nonzero; a feature is skipped (not an
error) exactly when for latitude or for longitude both the direct and the
center values are absent or zero.  In particular a feature whose only
available latitude or longitude equals 0 is skipped, since Python `or` and
`not` treat the float 0.0 as missing. -/
theorem C3_coordinate_resolution :
    ∀ (e : Elem) (la lo : ℚ),
      resolve e = some (la, lo) ↔
        (((e.lat = some la ∧ la ≠ 0) ∨
            ((e.lat = none ∨ e.lat = some 0) ∧ e.center_lat = some la ∧ la ≠ 0))
         ∧ ((e.lon = some lo ∧ lo ≠ 0) ∨
            ((e.lon = none ∨ e.lon = some 0) ∧ e.center_lon = some lo ∧ lo ≠ 0))) := by
  intro e la lo
  rw [resolve_eq_some_iff]
  constructor
  · rintro ⟨h1, h2, hla, hlo⟩
    refine ⟨?_, ?_⟩
    · rcases (pyOr_eq_some_iff hla).mp h1 with h | ⟨hf, hc⟩
      · exact Or.inl ⟨h, hla⟩
      · exact Or.inr ⟨hf, hc, hla⟩
    · rcases (pyOr_eq_some_iff hlo).mp h2 with h | ⟨hf, hc⟩
      · exact Or.inl ⟨h, hlo⟩
      · exact Or.inr ⟨hf, hc, hlo⟩
  · rintro ⟨hA, hB⟩
    have hla : la ≠ 0 := by
      rcases hA with ⟨_, h⟩ | ⟨_, _, h⟩ <;> exact h
    have hlo : lo ≠ 0 := by
      rcases hB with ⟨_, h⟩ | ⟨_, _, h⟩ <;> exact h
    refine ⟨(pyOr_eq_some_iff hla).mpr ?_, (pyOr_eq_some_iff hlo).mpr ?_, hla, hlo⟩
    · rcases hA with ⟨h, _⟩ | ⟨hf, hc, _⟩
      · exact Or.inl h
      · exact Or.inr ⟨hf, hc⟩
    · rcases hB with ⟨h, _⟩ | ⟨hf, hc, _⟩
      · exact Or.inl h
      · exact Or.inr ⟨hf, hc⟩

/-- Counterexample to C3 as stated: this feature carries a direct
coordinate (latitude 0, longitude 1), so by the claim it must be processed,
yet the normalizer skips it. -/
theorem C3_counterexample :
    resolve ⟨some 0, some 1, none, none, [("name", "X")]⟩ = none
    ∧ Elem.lat ⟨some 0, some 1, none, none, [("name", "X")]⟩ = some 0
    ∧ Elem.lon ⟨some 0, some 1, none, none, [("name", "X")]⟩ = some 1 := by
  decide

/-- Claim C4: the display name is the `name` tag, defaulting to
`"Unknown Location"` when absent; after coordinate resolution and
deduplication, a feature is dropped (leaving only the recorded key behind)
exactly when its resolved name equals the placeholder and the requested
category is not one of police/hospital/fire, and is emitted otherwise. -/
theorem C4_unnamed_filter :
    ∀ (dm : ℚ → ℚ → ℚ → ℚ → String × ℤ) (cat : String) (olat olon : ℚ)
      (e : Elem) (rest : List Elem) (seen : List (ℤ × ℤ)) (la lo : ℚ),
      resolve e = some (la, lo) → coordKey la lo ∉ seen →
      (((tget e.tags "name" "Unknown Location" = "Unknown Location"
          ∧ cat ∉ (["police", "hospital", "fire"] : List String)) →
        collect dm cat olat olon (e :: rest) seen =
          collect dm cat olat olon rest (coordKey la lo :: seen))
      ∧ (¬(tget e.tags "name" "Unknown Location" = "Unknown Location"
          ∧ cat ∉ (["police", "hospital", "fire"] : List String)) →
        collect dm cat olat olon (e :: rest) seen =
          mkLoc dm cat olat olon e la lo ::
            collect dm cat olat olon rest (coordKey la lo :: seen))
      ∧ (e.tags.lookup "name" = none →
          tget e.tags "name" "Unknown Location" = "Unknown Location")
      ∧ (∀ v, e.tags.lookup "name" = some v →
          tget e.tags "name" "Unknown Location" = v)) := by
  intro dm cat olat olon e rest seen la lo hres hseen
  refine ⟨?_, ?_, ?_, ?_⟩
  · intro hskip
    simp only [collect, hres]
    rw [if_neg hseen, if_pos hskip]
  · intro hkeep
    simp only [collect, hres]
    rw [if_neg hseen, if_neg hkeep]
  · intro h
    simp [tget, h]
  · intro v h
    simp [tget, h]

/-- Witness for C4: an unnamed feature is dropped for the non-critical
category `"pharmacy"` (only its deduplication key is recorded). -/
theorem C4_witness :
    resolve ⟨some 1, some 1, none, none, []⟩ = some (1, 1)
    ∧ collect (fun _ _ _ _ => ("", 0)) "pharmacy" 0 0
        [⟨some 1, some 1, none, none, []⟩] []
      = collect (fun _ _ _ _ => ("", 0)) "pharmacy" 0 0 [] [coordKey 1 1] := by
  refine ⟨by decide, ?_⟩
  exact (C4_unnamed_filter (fun _ _ _ _ => ("", 0)) "pharmacy" 0 0
    ⟨some 1, some 1, none, none, []⟩ [] [] 1 1 (by decide) (by decide)).1
    (by decide)

lemma collect_key_notMem (dm : ℚ → ℚ → ℚ → ℚ → String × ℤ) (cat : String)
    (olat olon : ℚ) :
    ∀ (es : List Elem) (seen : List (ℤ × ℤ)) (l : Location),
      l ∈ collect dm cat olat olon es seen → coordKey l.lat l.lon ∉ seen := by
  intro es
  induction es with
  | nil =>
    intro seen l h
    simp [collect] at h
  | cons e rest ih =>
    intro seen l h
    simp only [collect] at h
    rcases hres : resolve e with _ | ⟨la, lo⟩ <;> rw [hres] at h
    · exact ih seen l h
    · dsimp only at h
      split_ifs at h with hmem hskip
      · exact ih seen l h
      · intro hc
        exact (ih _ l h) (List.mem_cons_of_mem _ hc)
      · rcases List.mem_cons.mp h with rfl | htail
        · simpa [mkLoc] using hmem
        · intro hc
          exact (ih _ l htail) (List.mem_cons_of_mem _ hc)

lemma collect_pairwise_keys (dm : ℚ → ℚ → ℚ → ℚ → String × ℤ) (cat : String)
    (olat olon : ℚ) :
    ∀ (es : List Elem) (seen : List (ℤ × ℤ)),
      (collect dm cat olat olon es seen).Pairwise
        (fun a b => coordKey a.lat a.lon ≠ coordKey b.lat b.lon) := by
  intro es
  induction es with
  | nil =>
    intro seen
    simp [collect]
  | cons e rest ih =>
    intro seen
    simp only [collect]
    rcases hres : resolve e with _ | ⟨la, lo⟩
    · exact ih seen
    · dsimp only
      split_ifs with hmem hskip
      · exact ih seen
      · exact ih _
      · refine List.pairwise_cons.mpr ⟨?_, ih _⟩
        intro b hb
        have hnot := collect_key_notMem dm cat olat olon rest
          (coordKey la lo :: seen) b hb
        have hne : coordKey b.lat b.lon ≠ coordKey la lo := by
          intro hc
          exact hnot (by rw [hc]; exact List.mem_cons_self _ _)
        simpa [mkLoc] using hne.symm

lemma collect_first (dm : ℚ → ℚ → ℚ → ℚ → String × ℤ) (cat : String)
    (olat olon : ℚ) :
    ∀ (es : List Elem) (seen : List (ℤ × ℤ)) (l : Location),
      l ∈ collect dm cat olat olon es seen →
      ∃ pre e suf la lo, es = pre ++ e :: suf
        ∧ resolve e = some (la, lo)
        ∧ coordKey la lo ∉ seen
        ∧ l = mkLoc dm cat olat olon e la lo
        ∧ ∀ e' ∈ pre, ∀ la' lo', resolve e' = some (la', lo') →
            coordKey la' lo' ∉ seen → coordKey la' lo' ≠ coordKey la lo := by
  intro es
  induction es with
  | nil =>
    intro seen l h
    simp [collect] at h
  | cons e rest ih =>
    intro seen l h
    simp only [collect] at h
    rcases hres : resolve e with _ | ⟨la0, lo0⟩ <;> rw [hres] at h
    · obtain ⟨pre, e1, suf, la, lo, heq, h1, h2, h3, h4⟩ := ih seen l h
      refine ⟨e :: pre, e1, suf, la, lo, by rw [heq]; rfl, h1, h2, h3, ?_⟩
      intro e' he' la' lo' hre' hns
      rcases List.mem_cons.mp he' with rfl | hmem
      · rw [hres] at hre'
        exact absurd hre' (by simp)
      · exact h4 e' hmem la' lo' hre' hns
    · dsimp only at h
      split_ifs at h with hmem hskip
      · obtain ⟨pre, e1, suf, la, lo, heq, h1, h2, h3, h4⟩ := ih seen l h
        refine ⟨e :: pre, e1, suf, la, lo, by rw [heq]; rfl, h1, h2, h3, ?_⟩
        intro e' he' la' lo' hre' hns
        rcases List.mem_cons.mp he' with rfl | hm
        · rw [hres] at hre'
          rw [Option.some.injEq, Prod.mk.injEq] at hre'
          exact absurd (hre'.1 ▸ hre'.2 ▸ hmem) hns
        · exact h4 e' hm la' lo' hre' hns
      · obtain ⟨pre, e1, suf, la, lo, heq, h1, h2, h3, h4⟩ := ih _ l h
        have h2seen : coordKey la lo ∉ seen :=
          fun hc => h2 (List.mem_cons_of_mem _ hc)
        have h2head : coordKey la lo ≠ coordKey la0 lo0 := by
          intro hc
          exact h2 (by rw [hc]; exact List.mem_cons_self _ _)
        refine ⟨e :: pre, e1, suf, la, lo, by rw [heq]; rfl, h1, h2seen, h3, ?_⟩
        intro e' he' la' lo' hre' hns
        rcases List.mem_cons.mp he' with rfl | hm
        · rw [hres] at hre'
          rw [Option.some.injEq, Prod.mk.injEq] at hre'
          obtain ⟨hla, hlo⟩ := hre'
          subst hla
          subst hlo
          exact fun hc => h2head hc.symm
        · by_cases hk : coordKey la' lo' = coordKey la0 lo0
          · rw [hk]
            exact fun hc => h2head hc.symm
          · exact h4 e' hm la' lo' hre'
              (by simp [List.mem_cons, hns, hk])
      · rcases List.mem_cons.mp h with rfl | htail
        · exact ⟨[], e, rest, la0, lo0, rfl, hres, hmem, rfl, by simp⟩
        · obtain ⟨pre, e1, suf, la, lo, heq, h1, h2, h3, h4⟩ := ih _ l htail
          have h2seen : coordKey la lo ∉ seen :=
            fun hc => h2 (List.mem_cons_of_mem _ hc)
          have h2head : coordKey la lo ≠ coordKey la0 lo0 := by
            intro hc
            exact h2 (by rw [hc]; exact List.mem_cons_self _ _)
          refine ⟨e :: pre, e1, suf, la, lo, by rw [heq]; rfl, h1, h2seen, h3, ?_⟩
          intro e' he' la' lo' hre' hns
          rcases List.mem_cons.mp he' with rfl | hm
          · rw [hres] at hre'
            rw [Option.some.injEq, Prod.mk.injEq] at hre'
            obtain ⟨hla, hlo⟩ := hre'
            subst hla
            subst hlo
            exact fun hc => h2head hc.symm
          · by_cases hk : coordKey la' lo' = coordKey la0 lo0
            · rw [hk]
              exact fun hc => h2head hc.symm
            · exact h4 e' hm la' lo' hre'
                (by simp [List.mem_cons, hns, hk])

lemma pair_sublist_take {α : Type _} :
    ∀ (l : List α) (n : ℕ) (a b : α),
      l.Nodup → List.Sublist [a, b] l → b ∈ l.take n →
        List.Sublist [a, b] (l.take n) := by
  intro l
  induction l with
  | nil =>
    intro n a b _ hsub _
    simp at hsub
  | cons x l ih =>
    intro n a b hnd hsub hmem
    have hab : a ≠ b := by
      have h2 := hsub.nodup hnd
      simp [List.nodup_cons] at h2
      exact h2
    cases n with
    | zero => simp at hmem
    | succ m =>
      rw [List.take_succ_cons] at hmem ⊢
      cases hsub with
      | cons _ hsub' =>
        have hbl : b ∈ l := hsub'.subset (by simp)
        rcases List.mem_cons.mp hmem with rfl | hmem'
        · exact absurd hbl (List.nodup_cons.mp hnd).1
        · exact ((ih m a b (List.nodup_cons.mp hnd).2 hsub' hmem').cons x)
      | cons₂ _ hsub' =>
        rcases List.mem_cons.mp hmem with rfl | hmem'
        · exact absurd rfl hab
        · have hbl : b ∈ List.take m l := hmem'
          exact (List.singleton_sublist.mpr hbl).cons₂ x

lemma distLE_trans : ∀ a b c : Location, distLE a b → distLE b c → distLE a c := by
  intro a b c
  simp only [distLE, decide_eq_true_eq]
  omega

lemma distLE_total : ∀ a b : Location, distLE a b || distLE b a := by
  intro a b
  simp only [distLE, Bool.or_eq_true, decide_eq_true_eq]
  omega

lemma collect_nodup (dm : ℚ → ℚ → ℚ → ℚ → String × ℤ) (cat : String)
    (olat olon : ℚ) (es : List Elem) (seen : List (ℤ × ℤ)) :
    (collect dm cat olat olon es seen).Nodup := by
  have h := collect_pairwise_keys dm cat olat olon es seen
  exact h.imp fun hk heq => hk (by rw [heq])

/-- Claim C2: the returned location list is sorted ascending by
`distance_meters`, the sort is stable (entries with equal distance keep
their encounter order from the normalization pass), the list has at most
20 entries, no two entries share a 5-decimal coordinate key, and every
returned entry derives from the first raw feature (in encounter order)
whose resolved coordinate has its key. -/
theorem C2_result_set :
    ∀ (dm : ℚ → ℚ → ℚ → ℚ → String × ℤ) (cat : String) (olat olon : ℚ)
      (elements : List Elem),
      (processElements dm cat olat olon elements).Pairwise
          (fun a b => a.distance_meters ≤ b.distance_meters)
      ∧ (processElements dm cat olat olon elements).length ≤ 20
      ∧ (processElements dm cat olat olon elements).Pairwise
          (fun a b => coordKey a.lat a.lon ≠ coordKey b.lat b.lon)
      ∧ (∀ a b : Location,
           List.Sublist [a, b] (collect dm cat olat olon elements []) →
           a.distance_meters = b.distance_meters →
           b ∈ processElements dm cat olat olon elements →
           List.Sublist [a, b] (processElements dm cat olat olon elements))
      ∧ (∀ l ∈ processElements dm cat olat olon elements,
           ∃ pre e suf la lo, elements = pre ++ e :: suf
             ∧ resolve e = some (la, lo)
             ∧ l = mkLoc dm cat olat olon e la lo
             ∧ ∀ e' ∈ pre, ∀ la' lo', resolve e' = some (la', lo') →
                 coordKey la' lo' ≠ coordKey la lo) := by
  intro dm cat olat olon elements
  have hsorted := List.sorted_mergeSort distLE_trans distLE_total
    (collect dm cat olat olon elements [])
  have hperm := List.mergeSort_perm (collect dm cat olat olon elements []) distLE
  have hnodup : ((collect dm cat olat olon elements []).mergeSort distLE).Nodup :=
    hperm.nodup_iff.mpr (collect_nodup dm cat olat olon elements [])
  refine ⟨?_, ?_, ?_, ?_, ?_⟩
  · have h1 : (processElements dm cat olat olon elements).Pairwise
        (fun a b => distLE a b = true) :=
      List.Pairwise.sublist (List.take_sublist 20 _) hsorted
    exact h1.imp fun hab => by
      simpa [distLE, decide_eq_true_eq] using hab
  · simp only [processElements, List.length_take]
    exact min_le_left _ _
  · have hkeys : ((collect dm cat olat olon elements []).mergeSort distLE).Pairwise
        (fun a b => coordKey a.lat a.lon ≠ coordKey b.lat b.lon) :=
      (hperm.pairwise_iff (fun h => h.symm)).mpr
        (collect_pairwise_keys dm cat olat olon elements [])
    exact List.Pairwise.sublist (List.take_sublist 20 _) hkeys
  · intro a b hsub heq hb
    have hle : distLE a b = true := by
      simp only [distLE, decide_eq_true_eq]
      omega
    have hpair : List.Pairwise (fun x y => distLE x y = true) [a, b] := by
      simp [hle]
    have hstab := List.sublist_mergeSort distLE_trans distLE_total hpair hsub
    exact pair_sublist_take _ 20 a b hnodup hstab hb
  · intro l hl
    have hl2 : l ∈ (collect dm cat olat olon elements []).mergeSort distLE :=
      List.take_subset 20 _ hl
    have hl3 : l ∈ collect dm cat olat olon elements [] :=
      List.mem_mergeSort.mp hl2
    obtain ⟨pre, e, suf, la, lo, heq, h1, _, h3, h4⟩ :=
      collect_first dm cat olat olon elements [] l hl3
    exact ⟨pre, e, suf, la, lo, heq, h1, h3, fun e' he' la' lo' hre' =>
      h4 e' he' la' lo' hre' (List.not_mem_nil _)⟩

/-- Witness for C2: a one-element response list whose entry provably
derives from the first (and only) raw feature with its coordinate key. -/
theorem C2_result_set_witness :
    mkLoc (fun _ _ _ _ => ("", 0)) "all" 0 0
        ⟨some 1, some 1, none, none, [("name", "A")]⟩ 1 1
      ∈ processElements (fun _ _ _ _ => ("", 0)) "all" 0 0
          [⟨some 1, some 1, none, none, [("name", "A")]⟩]
    ∧ ∃ pre e suf la lo,
        [(⟨some 1, some 1, none, none, [("name", "A")]⟩ : Elem)] = pre ++ e :: suf
        ∧ resolve e = some (la, lo)
        ∧ mkLoc (fun _ _ _ _ => ("", 0)) "all" 0 0
            ⟨some 1, some 1, none, none, [("name", "A")]⟩ 1 1
          = mkLoc (fun _ _ _ _ => ("", 0)) "all" 0 0 e la lo
        ∧ ∀ e' ∈ pre, ∀ la' lo', resolve e' = some (la', lo') →
            coordKey la' lo' ≠ coordKey la lo := by
  have hcol : collect (fun _ _ _ _ => ("", 0)) "all" 0 0
      [⟨some 1, some 1, none, none, [("name", "A")]⟩] []
      = [mkLoc (fun _ _ _ _ => ("", 0)) "all" 0 0
          ⟨some 1, some 1, none, none, [("name", "A")]⟩ 1 1] := by
    have hres : resolve ⟨some 1, some 1, none, none, [("name", "A")]⟩
        = some (1, 1) := by decide
    simp [collect, hres, tget]
  have hmem : mkLoc (fun _ _ _ _ => ("", 0)) "all" 0 0
      ⟨some 1, some 1, none, none, [("name", "A")]⟩ 1 1
      ∈ processElements (fun _ _ _ _ => ("", 0)) "all" 0 0
          [⟨some 1, some 1, none, none, [("name", "A")]⟩] := by
    simp [processElements, hcol]
  exact ⟨hmem, (C2_result_set (fun _ _ _ _ => ("", 0)) "all" 0 0
    [⟨some 1, some 1, none, none, [("name", "A")]⟩]).2.2.2.2 _ hmem⟩

lemma qmerge_node : ∀ X : String,
    "\n            [out:json][timeout:15];\n            (\n                "
      ++ ("node" ++ ("[" ++ X))
    = "\n            [out:json][timeout:15];\n            (\n                node["
      ++ X := by
  intro X
  rw [← String.append_assoc, ← String.append_assoc]
  exact congrArg (fun s => s ++ X) (by decide)

lemma qmerge_way : ∀ X : String,
    ");" ++ ("\n                " ++ ("way" ++ ("[" ++ X)))
    = ");\n                way[" ++ X := by
  intro X
  rw [← String.append_assoc, ← String.append_assoc, ← String.append_assoc]
  exact congrArg (fun s => s ++ X) (by decide)

lemma qmerge_relation : ∀ X : String,
    ");" ++ ("\n                " ++ ("relation" ++ ("[" ++ X)))
    = ");\n                relation[" ++ X := by
  intro X
  rw [← String.append_assoc, ← String.append_assoc, ← String.append_assoc]
  exact congrArg (fun s => s ++ X) (by decide)

lemma qmerge_tail :
    ");" ++ "\n            );\n            out center tags;\n        "
    = ");\n            );\n            out center tags;\n        " := by
  decide

/-- Claim C5: query building is total; the tag filter follows the fixed
category table with `amenity=hospital` for unrecognized categories; the
built query applies the same filter to the three geometry kinds `node`,
`way` and `relation` with the same radius and coordinates, requests center
coordinates and tags (`out center tags`), and carries the execution
timeout 15 while the outbound call uses the separate transport timeout
20. -/
theorem C5_query_builder :
    (query_filter "police" = "amenity=police"
      ∧ query_filter "hospital" = "amenity=hospital"
      ∧ query_filter "ambulance" = "amenity~\"hospital|clinic|doctors\""
      ∧ query_filter "fire" = "amenity=fire_station"
      ∧ query_filter "pharmacy" = "amenity=pharmacy"
      ∧ query_filter "utility" = "office~\"company|government\""
      ∧ query_filter "all" = "amenity~\"police|hospital|fire_station|clinic\"")
    ∧ (∀ cat : String,
        cat ∉ (["police", "hospital", "ambulance", "fire", "pharmacy",
          "utility", "all"] : List String) →
        query_filter cat = "amenity=hospital")
    ∧ (∀ (f : String) (radius : ℤ) (lat lon : ℚ),
        overpass_query f radius lat lon =
          "\n            [out:json][timeout:15];\n            (\n                "
          ++ around_clause "node" f radius lat lon
          ++ "\n                " ++ around_clause "way" f radius lat lon
          ++ "\n                " ++ around_clause "relation" f radius lat lon
          ++ "\n            );\n            out center tags;\n        ")
    ∧ request_timeout = 20 := by
  refine ⟨⟨by decide, by decide, by decide, by decide, by decide, by decide,
    by decide⟩, ?_, ?_, rfl⟩
  · intro cat h
    simp only [List.mem_cons, List.not_mem_nil, or_false, not_or] at h
    obtain ⟨h1, h2, h3, h4, h5, h6, h7⟩ := h
    simp [query_filter, category_map, List.lookup, h7,
      beq_eq_false_iff_ne.mpr h1, beq_eq_false_iff_ne.mpr h2,
      beq_eq_false_iff_ne.mpr h3, beq_eq_false_iff_ne.mpr h4,
      beq_eq_false_iff_ne.mpr h5, beq_eq_false_iff_ne.mpr h6]
  · intro f radius lat lon
    simp only [overpass_query, around_clause, String.append_assoc]
    rw [qmerge_node, qmerge_way, qmerge_relation, ← qmerge_tail]

/-- Witness for C5: the fallback filter at the unrecognized category
`"school"`. -/
theorem C5_query_builder_witness :
    ("school" : String) ∉ (["police", "hospital", "ambulance", "fire",
      "pharmacy", "utility", "all"] : List String)
    ∧ query_filter "school" = "amenity=hospital" := by
  refine ⟨by decide, ?_⟩
  exact C5_query_builder.2.1 "school" (by decide)

lemma peza_success_radius (pfloat : String → Option ℚ) (pint : String → Option ℤ)
    (dm : ℚ → ℚ → ℚ → ℚ → String × ℤ) (r : HttpRequest) (elements : List Elem)
    (cnt : ℕ) (locs : List Location) (sp : SearchParams) (rv : ℤ) :
    (match getParam r "radius" with
     | none => some 5000
     | some s => pint s) = some rv →
    peza_api pfloat pint dm r (.ok elements) = .success cnt locs sp →
    sp.radius_meters = if rv > 20000 then 20000 else rv := by
  intro hrad h
  simp only [peza_api] at h
  rw [hrad] at h
  split at h
  · simp at h
  · next radius0 heq =>
    rw [Option.some.injEq] at heq
    subst heq
    split at h
    · simp at h
    · split at h
      · rw [Resp.success.injEq] at h
        rw [← h.2.2]
      · simp at h

/-- Claim C6 (amended): the effective radius defaults to 5000 when the
parameter is absent, a parsed value above 20000 is clamped (never rejected)
to 20000, otherwise the parsed value is used unchanged, and the effective
value is the one echoed in `search_params.radius_meters`; in particular
`radius=50000` yields 20000.  There is no lower bound: a negative parsed
radius passes through (see the counterexample). -/
theorem C6_radius_clamp :
    ∀ (pfloat : String → Option ℚ) (pint : String → Option ℤ)
      (dm : ℚ → ℚ → ℚ → ℚ → String × ℤ) (r : HttpRequest)
      (elements : List Elem) (cnt : ℕ) (locs : List Location) (sp : SearchParams),
      peza_api pfloat pint dm r (.ok elements) = .success cnt locs sp →
      ((getParam r "radius" = none → sp.radius_meters = 5000)
      ∧ (∀ s v, getParam r "radius" = some s → pint s = some v → v > 20000 →
          sp.radius_meters = 20000)
      ∧ (∀ s v, getParam r "radius" = some s → pint s = some v → v ≤ 20000 →
          sp.radius_meters = v)) := by
  intro pfloat pint dm r elements cnt locs sp h
  refine ⟨?_, ?_, ?_⟩
  · intro hnone
    have hr := peza_success_radius pfloat pint dm r elements cnt locs sp 5000
      (by rw [hnone]) h
    simpa using hr
  · intro s v hs hv hgt
    have hr := peza_success_radius pfloat pint dm r elements cnt locs sp v
      (by rw [hs]; exact hv) h
    rwa [if_pos hgt] at hr
  · intro s v hs hv hle
    have hr := peza_success_radius pfloat pint dm r elements cnt locs sp v
      (by rw [hs]; exact hv) h
    rwa [if_neg (by omega)] at hr

/-- Counterexample to C6 as stated: a negative radius is not clamped to
the claimed interval `[0, 20000]` — `radius=-1` is echoed back as −1. -/
theorem C6_counterexample :
    peza_api (fun s => if s = "1" then some 1 else none)
        (fun s => if s = "-1" then some (-1) else none)
        (fun _ _ _ _ => ("", 0))
        ⟨[("lat", "1"), ("lon", "1"), ("radius", "-1")]⟩ (.ok [])
      = .success 0 [] ⟨1, 1, "all", -1⟩
    ∧ ¬(0 ≤ (-1 : ℤ)) := by
  refine ⟨?_, by norm_num⟩
  have hlat : getParam ⟨[("lat", "1"), ("lon", "1"), ("radius", "-1")]⟩ "lat"
      = some "1" := by decide
  have hlon : getParam ⟨[("lat", "1"), ("lon", "1"), ("radius", "-1")]⟩ "lon"
      = some "1" := by decide
  have hrad : getParam ⟨[("lat", "1"), ("lon", "1"), ("radius", "-1")]⟩ "radius"
      = some "-1" := by decide
  have hcat : getParam ⟨[("lat", "1"), ("lon", "1"), ("radius", "-1")]⟩ "category"
      = none := by decide
  simp [peza_api, hlat, hlon, hrad, hcat, optStrFalsy, processElements, collect]

/-- Witness for C6: `radius=50000` is clamped to 20000 in the echoed
search parameters. -/
theorem C6_radius_clamp_witness :
    getParam ⟨[("lat", "1"), ("lon", "1"), ("radius", "50000")]⟩ "radius"
      = some "50000"
    ∧ SearchParams.radius_meters ⟨1, 1, "all", 20000⟩ = 20000 := by
  refine ⟨by decide, ?_⟩
  have hlat : getParam ⟨[("lat", "1"), ("lon", "1"), ("radius", "50000")]⟩ "lat"
      = some "1" := by decide
  have hlon : getParam ⟨[("lat", "1"), ("lon", "1"), ("radius", "50000")]⟩ "lon"
      = some "1" := by decide
  have hrad : getParam ⟨[("lat", "1"), ("lon", "1"), ("radius", "50000")]⟩ "radius"
      = some "50000" := by decide
  have hcat : getParam ⟨[("lat", "1"), ("lon", "1"), ("radius", "50000")]⟩
      "category" = none := by decide
  have hsucc : peza_api (fun s => if s = "1" then some 1 else none)
      (fun s => if s = "50000" then some 50000 else none)
      (fun _ _ _ _ => ("", 0))
      ⟨[("lat", "1"), ("lon", "1"), ("radius", "50000")]⟩ (.ok [])
      = .success 0 [] ⟨1, 1, "all", 20000⟩ := by
    simp [peza_api, hlat, hlon, hrad, hcat, optStrFalsy, processElements, collect]
  exact (C6_radius_clamp (fun s => if s = "1" then some 1 else none)
    (fun s => if s = "50000" then some 50000 else none)
    (fun _ _ _ _ => ("", 0))
    ⟨[("lat", "1"), ("lon", "1"), ("radius", "50000")]⟩ [] 0 []
    ⟨1, 1, "all", 20000⟩ hsucc).2.1 "50000" 50000 hrad (by decide) (by decide)

/-- Claim C7 (amended): provided the radius parameter, when present, parses
as an integer, every request whose `lat` or `lon` is missing (or empty) or
fails float parsing receives a client-error (HTTP 400) response with one of
the two validation messages, and the response does not depend on the
upstream service (no outbound call is consulted). -/
theorem C7_validation :
    ∀ (pfloat : String → Option ℚ) (pint : String → Option ℤ)
      (dm : ℚ → ℚ → ℚ → ℚ → String × ℤ) (r : HttpRequest) (rv : ℤ),
      (match getParam r "radius" with
       | none => some 5000
       | some s => pint s) = some rv →
      (optStrFalsy (getParam r "lat") = true
        ∨ optStrFalsy (getParam r "lon") = true
        ∨ pfloat ((getParam r "lat").getD "") = none
        ∨ pfloat ((getParam r "lon").getD "") = none) →
      ∃ msg, (msg = "Missing required parameters: lat and lon"
          ∨ msg = "Invalid coordinates format")
        ∧ ∀ upstream, peza_api pfloat pint dm r upstream = .clientError msg
          ∧ statusOf (peza_api pfloat pint dm r upstream) = 400 := by
  intro pfloat pint dm r rv hrad hbad
  by_cases hmiss : optStrFalsy (getParam r "lat") = true
    ∨ optStrFalsy (getParam r "lon") = true
  · refine ⟨"Missing required parameters: lat and lon", Or.inl rfl, fun up => ?_⟩
    have heq : peza_api pfloat pint dm r up
        = .clientError "Missing required parameters: lat and lon" := by
      simp only [peza_api]
      rw [hrad]
      dsimp only
      rw [if_pos hmiss]
    exact ⟨heq, by rw [heq]; rfl⟩
  · rcases hbad with h | h | h | h
    · exact absurd (Or.inl h) hmiss
    · exact absurd (Or.inr h) hmiss
    · refine ⟨"Invalid coordinates format", Or.inr rfl, fun up => ?_⟩
      have heq : peza_api pfloat pint dm r up
          = .clientError "Invalid coordinates format" := by
        simp only [peza_api]
        rw [hrad]
        dsimp only
        rw [if_neg hmiss, h]
      exact ⟨heq, by rw [heq]; rfl⟩
    · refine ⟨"Invalid coordinates format", Or.inr rfl, fun up => ?_⟩
      have heq : peza_api pfloat pint dm r up
          = .clientError "Invalid coordinates format" := by
        simp only [peza_api]
        rw [hrad]
        dsimp only
        rw [if_neg hmiss]
        rcases hlat : pfloat ((getParam r "lat").getD "") with _ | lat
        · rfl
        · rw [h]
      exact ⟨heq, by rw [heq]; rfl⟩

/-- Counterexample to C7 as stated: a request with `lat` missing but an
unparsable radius gets the internal-error outcome (HTTP 500), not the
claimed client-error, because the radius is parsed before the coordinate
checks. -/
theorem C7_counterexample :
    getParam ⟨[("radius", "abc")]⟩ "lat" = none
    ∧ peza_api (fun _ => none) (fun _ => none) (fun _ _ _ _ => ("", 0))
        ⟨[("radius", "abc")]⟩ (.ok [])
      = .internalError "Internal server error"
          "invalid literal for int() with base 10"
    ∧ statusOf (peza_api (fun _ => none) (fun _ => none) (fun _ _ _ _ => ("", 0))
        ⟨[("radius", "abc")]⟩ (.ok [])) = 500 := by
  refine ⟨by decide, ?_, ?_⟩ <;> decide

/-- Witness for C7: a request carrying no parameters at all (radius absent,
so it parses to the default) gets the missing-parameters client error for
every upstream. -/
theorem C7_validation_witness :
    ∃ msg, (msg = "Missing required parameters: lat and lon"
        ∨ msg = "Invalid coordinates format")
      ∧ ∀ upstream, peza_api (fun _ => none) (fun _ => none)
          (fun _ _ _ _ => ("", 0)) ⟨[]⟩ upstream = .clientError msg
        ∧ statusOf (peza_api (fun _ => none) (fun _ => none)
            (fun _ _ _ _ => ("", 0)) ⟨[]⟩ upstream) = 400 := by
  exact C7_validation (fun _ => none) (fun _ => none) (fun _ _ _ _ => ("", 0))
    ⟨[]⟩ 5000 (by decide) (Or.inl (by decide))

/-- Claim C8: when the request passes validation and the outbound Overpass
call fails (timeout, connection error or non-success status, i.e. a raised
`requests.RequestException`), the handler returns the 503
service-unavailable envelope with the fixed error text and the underlying
diagnostic as `details`; the response carries no locations, so no partial
results are returned and no raw fault propagates. -/
theorem C8_upstream_failure :
    ∀ (pfloat : String → Option ℚ) (pint : String → Option ℤ)
      (dm : ℚ → ℚ → ℚ → ℚ → String × ℤ) (r : HttpRequest) (rv : ℤ)
      (lat lon : ℚ) (err : String),
      (match getParam r "radius" with
       | none => some 5000
       | some s => pint s) = some rv →
      optStrFalsy (getParam r "lat") = false →
      optStrFalsy (getParam r "lon") = false →
      pfloat ((getParam r "lat").getD "") = some lat →
      pfloat ((getParam r "lon").getD "") = some lon →
      peza_api pfloat pint dm r (.error err)
        = .serviceUnavailable
            "Failed to fetch emergency services. Please try again." err
      ∧ statusOf (peza_api pfloat pint dm r (.error err)) = 503
      ∧ locationsOf (peza_api pfloat pint dm r (.error err)) = [] := by
  intro pfloat pint dm r rv lat lon err hrad hlatF hlonF hlat hlon
  have heq : peza_api pfloat pint dm r (.error err)
      = .serviceUnavailable
          "Failed to fetch emergency services. Please try again." err := by
    simp only [peza_api]
    rw [hrad]
    dsimp only
    rw [if_neg (by simp [hlatF, hlonF]), hlat, hlon]
  exact ⟨heq, by rw [heq]; rfl, by rw [heq]; rfl⟩

/-- Witness for C8: a validated request whose upstream call raises a
timeout gets the 503 envelope with the diagnostic echoed in `details`. -/
theorem C8_upstream_failure_witness :
    peza_api (fun s => if s = "1" then some 1 else none) (fun _ => none)
        (fun _ _ _ _ => ("", 0)) ⟨[("lat", "1"), ("lon", "1")]⟩
        (.error "HTTPSConnectionPool: Read timed out.")
      = .serviceUnavailable
          "Failed to fetch emergency services. Please try again."
          "HTTPSConnectionPool: Read timed out."
    ∧ statusOf (peza_api (fun s => if s = "1" then some 1 else none)
        (fun _ => none) (fun _ _ _ _ => ("", 0))
        ⟨[("lat", "1"), ("lon", "1")]⟩
        (.error "HTTPSConnectionPool: Read timed out.")) = 503
    ∧ locationsOf (peza_api (fun s => if s = "1" then some 1 else none)
        (fun _ => none) (fun _ _ _ _ => ("", 0))
        ⟨[("lat", "1"), ("lon", "1")]⟩
        (.error "HTTPSConnectionPool: Read timed out.")) = [] := by
  exact C8_upstream_failure (fun s => if s = "1" then some 1 else none)
    (fun _ => none) (fun _ _ _ _ => ("", 0)) ⟨[("lat", "1"), ("lon", "1")]⟩
    5000 1 1 "HTTPSConnectionPool: Read timed out." (by decide) (by decide)
    (by decide) (by decide) (by decide)

/-- Claim C10: a present but unparsable radius parameter makes `int()`
raise before the coordinate checks, so the generic exception handler
returns the 500 internal-error envelope with error text
`"Internal server error"` — never the validation client-error — and the
outcome is the same for every upstream (no outbound call is made), even
when `lat` or `lon` is also missing or non-numeric. -/
theorem C10_invalid_radius :
    ∀ (pfloat : String → Option ℚ) (pint : String → Option ℤ)
      (dm : ℚ → ℚ → ℚ → ℚ → String × ℤ) (r : HttpRequest)
      (upstream : Except String (List Elem)) (s : String),
      getParam r "radius" = some s → pint s = none →
      peza_api pfloat pint dm r upstream
        = .internalError "Internal server error"
            "invalid literal for int() with base 10"
      ∧ statusOf (peza_api pfloat pint dm r upstream) = 500
      ∧ (∀ msg, peza_api pfloat pint dm r upstream ≠ .clientError msg)
      ∧ (∀ up2, peza_api pfloat pint dm r up2
          = peza_api pfloat pint dm r upstream) := by
  intro pfloat pint dm r upstream s hs hnone
  have heq : ∀ up : Except String (List Elem),
      peza_api pfloat pint dm r up
        = .internalError "Internal server error"
            "invalid literal for int() with base 10" := by
    intro up
    simp only [peza_api]
    rw [hs]
    dsimp only
    rw [hnone]
  refine ⟨heq upstream, by rw [heq upstream]; rfl, ?_, ?_⟩
  · intro msg hcontra
    rw [heq upstream] at hcontra
    exact absurd hcontra (by simp)
  · intro up2
    rw [heq up2, heq upstream]

/-- Witness for C10: the request of the C7 counterexample — `lat` missing
and `radius=abc` — yields the 500 internal error for the `.ok` upstream. -/
theorem C10_invalid_radius_witness :
    getParam ⟨[("radius", "abc")]⟩ "radius" = some "abc"
    ∧ peza_api (fun _ => none) (fun _ => none) (fun _ _ _ _ => ("", 0))
        ⟨[("radius", "abc")]⟩ (.ok [])
      = .internalError "Internal server error"
          "invalid literal for int() with base 10"
    ∧ statusOf (peza_api (fun _ => none) (fun _ => none)
        (fun _ _ _ _ => ("", 0)) ⟨[("radius", "abc")]⟩ (.ok [])) = 500 := by
  refine ⟨by decide, ?_⟩
  have h := C10_invalid_radius (fun _ => none) (fun _ => none)
    (fun _ _ _ _ => ("", 0)) ⟨[("radius", "abc")]⟩ (.ok []) "abc"
    (by decide) (by decide)
  exact ⟨h.1, h.2.1⟩

/-- Witness for C3: a feature with a zero direct latitude but a nonzero
center latitude resolves to the center value, per the amended
characterization. -/
theorem C3_coordinate_resolution_witness :
    resolve ⟨some 0, some 3, some 2, none, []⟩ = some (2, 3) := by
  exact (C3_coordinate_resolution ⟨some 0, some 3, some 2, none, []⟩ 2 3).mpr
    (by decide)
